import Mathlib

/-!
Shallow embedding of the status-categorization and due-date engine of
src/Prop_pres_2.0.py (the CPP dashboard): the Python string operations the
code applies to status text, the `categorize` rule chain, the `parse_date`
normalizer (its explicit strptime format list and its dateutil fallback),
the aggregator KPIs and the urgency selectors, together with theorems
settling the specification claims about them.

Dates are handled at day granularity throughout, exactly as the code does
(`.normalize()` truncates to midnight before every comparison): calendar
dates coming out of the parser are (year, month, day) triples, while the
classifier and the selectors, which only ever compare dates, work on
integer day numbers (an arbitrary but fixed day-numbering; `today + 7
days` is `today + 7`).
-/

/-! ### Python string primitives (ASCII fragment)

The feed data and every vocabulary word are ASCII, so we model
`str.lower` on the ASCII letters and `str.strip` on the ASCII whitespace
characters that Python strips. -/

/-- ASCII lowercasing of one character, as Python `str.lower` acts on ASCII. -/
def asciiLower (c : Char) : Char :=
  if 'A' ≤ c ∧ c ≤ 'Z' then Char.ofNat (c.toNat + 32) else c

/-- Python `str.lower` on ASCII text. -/
def pyLower (s : String) : String :=
  String.mk (s.data.map asciiLower)

/-- The ASCII whitespace characters Python `str.strip` removes (also the
class the regex \s matches in the strptime format machinery below). -/
def pySpace (c : Char) : Bool :=
  c = ' ' ∨ c = '\t' ∨ c = '\n' ∨ c = '\r' ∨ c = '\x0b' ∨ c = '\x0c'

/-- Python `str.strip` with no argument: drop leading and trailing whitespace. -/
def pyStrip (s : String) : String :=
  String.mk (((s.data.dropWhile pySpace).reverse.dropWhile pySpace).reverse)

/-- Whether the first character list is a prefix of the second. -/
def hasPrefixChars : List Char → List Char → Bool
  | [], _ => true
  | _ :: _, [] => false
  | a :: as, b :: bs => (a = b) && hasPrefixChars as bs

/-- Whether `needle` occurs contiguously inside `hay`. -/
def hasSubChars : List Char → List Char → Bool
  | hay, needle =>
    hasPrefixChars needle hay ||
      match hay with
      | [] => false
      | _ :: rest => hasSubChars rest needle

/-- Python `needle in hay` on strings: contiguous substring test. -/
def containsSub (hay needle : String) : Bool :=
  hasSubChars hay.data needle.data

/-- Python `any(word in s for word in words)`. -/
def containsAny (hay : String) (words : List String) : Bool :=
  words.any (containsSub hay)

/-- The cleaning the classifier applies to the status cell:
`str(x).lower().strip()`. -/
def pyClean (s : String) : String :=
  pyStrip (pyLower s)

/-- Python `str(x)` for a cell that is either a string or the missing-value
float NaN: `str(float("nan"))` is the three-letter string "nan". -/
def pyStr : Option String → String
  | none => "nan"
  | some s => s

/-! ### The status classifier (`categorize`, lines 127-149) -/

/-- The five categories the dashboard assigns (the emoji prefixes of the
Python strings are dropped; the identity of the five values is what
matters). -/
inductive Category where
  | Completed
  | Overdue
  | InProgress
  | PendingBid
  | Other
  deriving DecidableEq

/-- Explicit overdue vocabulary (rule 1 of `categorize`). -/
def overdueWords : List String := ["overdue", "late"]

/-- Completion vocabulary (rule 2 of `categorize`). -/
def completedWords : List String :=
  ["complete", "submitted", "payment", "finished", "done", "received"]

/-- Progress vocabulary (rule 4 of `categorize`), exactly as the source
lists it: among weekday names only "friday" and "monday" appear. -/
def progressWords : List String :=
  ["ongoing", "progress", "will be", "try to", "today", "tomorrow", "friday", "monday"]

/-- Pending/bid vocabulary (rule 5 of `categorize`). -/
def pendingWords : List String :=
  ["waiting", "pending", "bid", "pricing", "activation"]

/-- Rule 3 of `categorize`: the due date is a concrete date strictly before
today (`pd.notna(due) ... due.normalize() < today`); a missing (NaT) due
date can never satisfy it. -/
def dueIsPast (due : Option Int) (today : Int) : Bool :=
  match due with
  | some d => decide (d < today)
  | none => false

/-- The `categorize(row)` function, lines 127-149 of the source: an ordered
first-match-wins rule chain over the cleaned status text, with the
date-based overdue test placed between the completion vocabulary and the
progress vocabulary. -/
def categorize (status : Option String) (due : Option Int) (today : Int) : Category :=
  let s := pyClean (pyStr status)
  if containsAny s overdueWords then Category.Overdue
  else if containsAny s completedWords then Category.Completed
  else if dueIsPast due today then Category.Overdue
  else if containsAny s progressWords then Category.InProgress
  else if containsAny s pendingWords then Category.PendingBid
  else Category.Other

/-- C1: the classifier evaluates its rules in a fixed order with
first-match-wins: an overdue-vocabulary match returns Overdue before any
other rule; a completion-vocabulary match (with no overdue match) returns
Completed before the date comparison; in particular, for every today,
classifying "Overdue - no crew" with an unknown due date gives Overdue,
and classifying "Completed" with a due date of yesterday gives Completed
even though the due date is in the past. -/
theorem categorize_first_match_order :
    (∀ (s : String) (due : Option Int) (today : Int),
      containsAny (pyClean s) overdueWords = true →
      categorize (some s) due today = Category.Overdue) ∧
    (∀ (s : String) (due : Option Int) (today : Int),
      containsAny (pyClean s) overdueWords = false →
      containsAny (pyClean s) completedWords = true →
      categorize (some s) due today = Category.Completed) ∧
    (∀ today : Int,
      categorize (some "Overdue - no crew") none today = Category.Overdue) ∧
    (∀ today : Int,
      categorize (some "Completed") (some (today - 1)) today = Category.Completed) := by
  refine ⟨?_, ?_, ?_, ?_⟩
  · intro s due today h
    simp [categorize, pyStr, h]
  · intro s due today h1 h2
    simp [categorize, pyStr, h1, h2]
  · intro today
    have h : containsAny (pyClean (pyStr (some "Overdue - no crew"))) overdueWords = true := by
      decide
    simp [categorize, h]
  · intro today
    have h1 : containsAny (pyClean (pyStr (some "Completed"))) overdueWords = false := by
      decide
    have h2 : containsAny (pyClean (pyStr (some "Completed"))) completedWords = true := by
      decide
    simp [categorize, h1, h2]

/-- Witness for the hypotheses of categorize_first_match_order at concrete
inputs. -/
theorem categorize_first_match_order_witness :
    categorize (some "running late") none 0 = Category.Overdue ∧
    categorize (some "Payment sent") (some (-5)) 0 = Category.Completed :=
  ⟨categorize_first_match_order.1 "running late" none 0 (by decide),
   categorize_first_match_order.2.1 "Payment sent" (some (-5)) 0 (by decide) (by decide)⟩

/-- C10: a missing (NaN) status cell stringifies to "nan", which contains no
vocabulary word of any rule, so classification never fails and falls
through every text rule: the result is Overdue exactly when the due date
is concrete and strictly before today, and Other otherwise. -/
theorem categorize_missing_status :
    (∀ (d today : Int), d < today →
      categorize none (some d) today = Category.Overdue) ∧
    (∀ (d today : Int), ¬ d < today →
      categorize none (some d) today = Category.Other) ∧
    (∀ today : Int, categorize none none today = Category.Other) := by
  have h1 : containsAny (pyClean (pyStr none)) overdueWords = false := by decide
  have h2 : containsAny (pyClean (pyStr none)) completedWords = false := by decide
  have h4 : containsAny (pyClean (pyStr none)) progressWords = false := by decide
  have h5 : containsAny (pyClean (pyStr none)) pendingWords = false := by decide
  refine ⟨?_, ?_, ?_⟩
  · intro d today h
    simp [categorize, h1, h2, h4, h5, dueIsPast, h]
  · intro d today h
    simp [categorize, h1, h2, h4, h5, dueIsPast, h]
  · intro today
    simp [categorize, h1, h2, h4, h5, dueIsPast]

/-- Witness for the hypotheses of categorize_missing_status at concrete
inputs. -/
theorem categorize_missing_status_witness :
    categorize none (some 0) 1 = Category.Overdue ∧
    categorize none (some 1) 0 = Category.Other :=
  ⟨categorize_missing_status.1 0 1 (by decide),
   categorize_missing_status.2.1 1 0 (by decide)⟩

/-- C5 fails on the code: the progress vocabulary contains only "friday" and
"monday" among weekday names, so a status text consisting of another
weekday name, matching no other rule, classifies as Other, not
InProgress; "tuesday" and "saturday" with an unknown due date are concrete
refutations. -/
theorem categorize_weekday_counterexample :
    categorize (some "tuesday") none 0 = Category.Other ∧
    categorize (some "saturday") none 0 = Category.Other ∧
    Category.Other ≠ Category.InProgress := by
  refine ⟨by decide, by decide, by decide⟩

/-- C5 amended: the progress vocabulary comprises exactly "ongoing",
"progress", "will be", "try to", "today", "tomorrow", "friday" and
"monday" (only these two weekday names); any status text containing one of
them as a case-insensitive substring and matching no earlier rule (no
overdue or completion vocabulary, due date not concrete-and-past)
classifies as InProgress. -/
theorem categorize_progress_vocabulary :
    progressWords =
      ["ongoing", "progress", "will be", "try to", "today", "tomorrow", "friday", "monday"] ∧
    (∀ (s : String) (due : Option Int) (today : Int),
      containsAny (pyClean s) overdueWords = false →
      containsAny (pyClean s) completedWords = false →
      dueIsPast due today = false →
      containsAny (pyClean s) progressWords = true →
      categorize (some s) due today = Category.InProgress) := by
  refine ⟨rfl, ?_⟩
  intro s due today h1 h2 h3 h4
  simp [categorize, pyStr, h1, h2, h3, h4]

/-- Witness for the hypotheses of categorize_progress_vocabulary at a
concrete input. -/
theorem categorize_progress_vocabulary_witness :
    categorize (some "friday") none 0 = Category.InProgress :=
  categorize_progress_vocabulary.2 "friday" none 0 (by decide) (by decide) (by decide)
    (by decide)

/-! ### The date normalizer (`parse_date`, lines 107-124)

The code tries seven explicit strptime formats in order via
`pd.to_datetime(s, format=fmt, errors="raise")`, then falls back to
`dateutil.parser.parse(s, dayfirst=False, fuzzy=True)`, then to
`pd.to_datetime(s, errors="coerce", dayfirst=True)`.

The strptime machinery below follows the CPython `_strptime` regexes that
pandas uses for an explicit `format=`: a directive is an ordered regex
alternation (for %d the branches 3[01], [12] then a digit, 0[1-9], [1-9],
then a space and [1-9]), %y is exactly two digits (00-68 maps to 20xx,
69-99 to 19xx), %Y is exactly four digits, %b is a three-letter month
abbreviation matched case-insensitively, a whitespace in the format
matches one or more whitespace characters, and the whole string must be
consumed ("unconverted data remains" otherwise). A syntactically matched
date must still be a valid calendar date (else `datetime` raises) and lie
inside the pandas Timestamp range (else `OutOfBoundsDatetime` is raised);
either failure is caught and the next format is tried. -/

/-- A calendar date: year, month, day. NaT is `Option.none` at use sites. -/
structure PDate where
  y : Nat
  m : Nat
  d : Nat
  deriving DecidableEq

/-- Gregorian leap year. -/
def isLeap (y : Nat) : Bool :=
  y % 4 = 0 ∧ (y % 100 ≠ 0 ∨ y % 400 = 0)

/-- Number of days of month `m` in year `y`. -/
def daysInMonth (y m : Nat) : Nat :=
  if m = 2 then (if isLeap y then 29 else 28)
  else if m = 4 ∨ m = 6 ∨ m = 9 ∨ m = 11 then 30
  else 31

/-- Whether (y, m, d) is a real calendar date `datetime.datetime` accepts. -/
def validDate (y m d : Nat) : Bool :=
  1 ≤ y ∧ y ≤ 9999 ∧ 1 ≤ m ∧ m ≤ 12 ∧ 1 ≤ d ∧ d ≤ daysInMonth y m

/-- Lexicographic comparison of calendar dates. -/
def pdateLE (a b : PDate) : Bool :=
  a.y < b.y ∨ (a.y = b.y ∧ (a.m < b.m ∨ (a.m = b.m ∧ a.d ≤ b.d)))

/-- Whether midnight of the date fits in a pandas Timestamp (nanosecond
epoch range: the first representable midnight is 1677-09-22, the last
full day is 2262-04-11); outside it `pd.to_datetime` raises
OutOfBoundsDatetime. -/
def tsBounds (p : PDate) : Bool :=
  pdateLE ⟨1677, 9, 22⟩ p ∧ pdateLE p ⟨2262, 4, 11⟩

/-- The strptime directives appearing in the source's format list. -/
inductive Dir where
  | day
  | mon
  | yr2
  | yr4
  | monAbbr
  | ws
  | lit (c : Char)

/-- Numeric value of an ASCII digit. -/
def digitVal (c : Char) : Option Nat :=
  if '0' ≤ c ∧ c ≤ '9' then some (c.toNat - 48) else none

/-- Parses of %d, in the priority order of the CPython alternation
3[01]|[12]\d|0[1-9]|[1-9]| [1-9]: each candidate is a value and the
remaining input. -/
def dayParses (cs : List Char) : List (Nat × List Char) :=
  (match cs with
   | c1 :: c2 :: rest =>
     (match digitVal c1, digitVal c2 with
      | some a, some b =>
        (if a = 3 ∧ b ≤ 1 then [(30 + b, rest)] else []) ++
        (if a = 1 ∨ a = 2 then [(10 * a + b, rest)] else []) ++
        (if a = 0 ∧ 1 ≤ b then [(b, rest)] else [])
      | _, _ => [])
   | _ => []) ++
  (match cs with
   | c1 :: rest =>
     (match digitVal c1 with
      | some a => if 1 ≤ a then [(a, rest)] else []
      | none => [])
   | [] => []) ++
  (match cs with
   | ' ' :: c2 :: rest =>
     (match digitVal c2 with
      | some b => if 1 ≤ b then [(b, rest)] else []
      | none => [])
   | _ => [])

/-- Parses of %m, in the priority order of the CPython alternation
1[0-2]|0[1-9]|[1-9]. -/
def monParses (cs : List Char) : List (Nat × List Char) :=
  (match cs with
   | c1 :: c2 :: rest =>
     (match digitVal c1, digitVal c2 with
      | some a, some b =>
        (if a = 1 ∧ b ≤ 2 then [(10 + b, rest)] else []) ++
        (if a = 0 ∧ 1 ≤ b then [(b, rest)] else [])
      | _, _ => [])
   | _ => []) ++
  (match cs with
   | c1 :: rest =>
     (match digitVal c1 with
      | some a => if 1 ≤ a then [(a, rest)] else []
      | none => [])
   | [] => [])

/-- Parse of %y: exactly two digits, with the CPython century rule. -/
def yr2Parses (cs : List Char) : List (Nat × List Char) :=
  match cs with
  | c1 :: c2 :: rest =>
    (match digitVal c1, digitVal c2 with
     | some a, some b =>
       [(if 10 * a + b ≤ 68 then 10 * a + b + 2000 else 10 * a + b + 1900, rest)]
     | _, _ => [])
  | _ => []

/-- Parse of %Y: exactly four digits. -/
def yr4Parses (cs : List Char) : List (Nat × List Char) :=
  match cs with
  | c1 :: c2 :: c3 :: c4 :: rest =>
    (match digitVal c1, digitVal c2, digitVal c3, digitVal c4 with
     | some a, some b, some c, some d =>
       [(1000 * a + 100 * b + 10 * c + d, rest)]
     | _, _, _, _ => [])
  | _ => []

/-- The English month abbreviations of the C locale, for %b. -/
def monthAbbrs : List String :=
  ["jan", "feb", "mar", "apr", "may", "jun", "jul", "aug", "sep", "oct", "nov", "dec"]

/-- Parses of %b: a three-letter month abbreviation, case-insensitive. -/
def abbrParses (cs : List Char) : List (Nat × List Char) :=
  (List.range 12).filterMap (fun i =>
    let name := (monthAbbrs.getD i "").data
    if (cs.take name.length).map asciiLower = name then
      some (i + 1, cs.drop name.length)
    else none)

/-- Length of the leading whitespace run. -/
def wsRun : List Char → Nat
  | c :: rest => if pySpace c then wsRun rest + 1 else 0
  | [] => 0

/-- Parses of a whitespace in the format (compiled to one-or-more
whitespace characters), greedy longest-first as the regex engine tries
them. -/
def wsParses (cs : List Char) : List (Nat × List Char) :=
  let r := wsRun cs
  (List.range r).map (fun j => (0, cs.drop (r - j)))

/-- All parses of one directive, in regex priority order. -/
def parsesDir : Dir → List Char → List (Nat × List Char)
  | Dir.day, cs => dayParses cs
  | Dir.mon, cs => monParses cs
  | Dir.yr2, cs => yr2Parses cs
  | Dir.yr4, cs => yr4Parses cs
  | Dir.monAbbr, cs => abbrParses cs
  | Dir.ws, cs => wsParses cs
  | Dir.lit c, cs =>
    match cs with
    | c1 :: rest => if asciiLower c1 = asciiLower c then [(0, rest)] else []
    | [] => []

/-- The captured groups of a format match: day, month, year. -/
structure PParts where
  dayF : Option Nat
  monF : Option Nat
  yrF : Option Nat

/-- Record a directive's captured value. -/
def setDir (st : PParts) : Dir → Nat → PParts
  | Dir.day, v => { st with dayF := some v }
  | Dir.mon, v => { st with monF := some v }
  | Dir.monAbbr, v => { st with monF := some v }
  | Dir.yr2, v => { st with yrF := some v }
  | Dir.yr4, v => { st with yrF := some v }
  | Dir.ws, _ => st
  | Dir.lit _, _ => st

/-- Depth-first regex matching of a whole format against a whole string,
with backtracking over each directive's alternatives in priority order;
the match must consume the entire input (the "unconverted data remains"
check). The fuel argument only drives the recursion; one unit per
directive suffices. -/
def matchFmtF : Nat → List Dir → List Char → PParts → Option PParts
  | _, [], [], st => some st
  | _, [], _ :: _, _ => none
  | 0, _ :: _, _, _ => none
  | fuel + 1, dir :: rest, cs, st =>
    (parsesDir dir cs).findSome? (fun p => matchFmtF fuel rest p.2 (setDir st dir p.1))

/-- One `pd.to_datetime(s, format=fmt, errors="raise")` attempt: regex
match of the full string, then calendar validity, then Timestamp bounds;
any failure (a caught exception in the source) yields none. -/
def strptime (fmt : List Dir) (s : String) : Option PDate :=
  match matchFmtF (fmt.length + 1) fmt s.data ⟨none, none, none⟩ with
  | some ⟨some d, some m, some y⟩ =>
    if validDate y m d ∧ tsBounds ⟨y, m, d⟩ then some ⟨y, m, d⟩ else none
  | _ => none

/-- The source's ordered format list: "%d/%m/%Y", "%m/%d/%y", "%m/%d/%Y",
"%d-%m-%y", "%d-%m-%Y", "%b %d, %Y", "%Y-%m-%d". -/
def fmts : List (List Dir) :=
  [ [Dir.day, Dir.lit '/', Dir.mon, Dir.lit '/', Dir.yr4],
    [Dir.mon, Dir.lit '/', Dir.day, Dir.lit '/', Dir.yr2],
    [Dir.mon, Dir.lit '/', Dir.day, Dir.lit '/', Dir.yr4],
    [Dir.day, Dir.lit '-', Dir.mon, Dir.lit '-', Dir.yr2],
    [Dir.day, Dir.lit '-', Dir.mon, Dir.lit '-', Dir.yr4],
    [Dir.monAbbr, Dir.ws, Dir.day, Dir.lit ',', Dir.ws, Dir.yr4],
    [Dir.yr4, Dir.lit '-', Dir.mon, Dir.lit '-', Dir.day] ]

/-- Full English month names, for the dateutil fallback. -/
def monthFull : List String :=
  ["january", "february", "march", "april", "may", "june", "july", "august",
   "september", "october", "november", "december"]

/-- The tokens of a string: maximal runs of non-whitespace characters. -/
def wordsAux : List Char → List Char → List (List Char)
  | [], acc => if acc.isEmpty then [] else [acc.reverse]
  | c :: rest, acc =>
    if pySpace c then
      (if acc.isEmpty then wordsAux rest [] else acc.reverse :: wordsAux rest [])
    else wordsAux rest (c :: acc)

/-- Month number of a token that is a full English month name or a
three-letter abbreviation (dateutil recognizes both). -/
def monthFromTok (t : List Char) : Option Nat :=
  ((List.range 12).filterMap (fun i =>
    if t = (monthFull.getD i "").data ∨ t = (monthAbbrs.getD i "").data then
      some (i + 1)
    else none)).head?

/-- Numeric value of an all-digit token. -/
def natFromTok (t : List Char) : Option Nat :=
  if t.isEmpty ∨ t.any (fun c => (digitVal c).isSome = false) then none
  else some (t.foldl (fun acc c => 10 * acc + ((digitVal c).getD 0)) 0)

/-- Models `dateutil.parser.parse(s, dayfirst=False, fuzzy=True)` followed
by `.normalize()`, for the token shapes this fallback actually receives
(inputs no explicit format matched): a month name with a day number, in
either order and optionally with a four-digit year. dateutil fills every
component the string leaves unspecified from the current date — its
documented default is today at midnight — so a month-and-day input
resolves in the year of `now`, the observation date. A string with no
recognizable date tokens makes the parser raise, modeled as none. -/
def dateutilFuzzy (s : String) (now : PDate) : Option PDate :=
  let mk := fun (y m d : Nat) =>
    if validDate y m d ∧ tsBounds ⟨y, m, d⟩ then some (PDate.mk y m d) else none
  match wordsAux (pyLower s).data [] with
  | [t1, t2] =>
    (match monthFromTok t1, natFromTok t2 with
     | some m, some d => if d ≤ 31 then mk now.y m d else none
     | _, _ =>
       match natFromTok t1, monthFromTok t2 with
       | some d, some m => if d ≤ 31 then mk now.y m d else none
       | _, _ => none)
  | [t1, t2, t3] =>
    (match monthFromTok t1, natFromTok t2, natFromTok t3 with
     | some m, some d, some y =>
       if d ≤ 31 ∧ 1000 ≤ y then mk y m d else none
     | _, _, _ => none)
  | _ => none

/-- Models the last resort `pd.to_datetime(s, errors="coerce",
dayfirst=True)`, which the code only reaches after the fuzzy dateutil
parse has raised: pandas' permissive parser is dateutil without fuzzy
tokenization, so it raises on those same inputs too, and errors="coerce"
turns that into NaT. -/
def toDatetimeCoerce (_ : String) (_ : PDate) : Option PDate :=
  none

/-- The case-insensitive null tokens treated as missing without a parse. -/
def nullTokens : List String := ["none", "nan", "n/a", "na"]

/-- The `parse_date(x)` function, lines 107-122 of the source. `x` is the
raw cell (none for a NaN cell, which `pd.isna` catches); `now` is the
observation date, which only the dateutil fallback consults (through its
default for unspecified components). -/
def parse_date (x : Option String) (now : PDate) : Option PDate :=
  match x with
  | none => none
  | some raw =>
    let s := pyStrip raw
    if s = "" ∨ pyLower s ∈ nullTokens then none
    else
      match fmts.findSome? (fun f => strptime f s) with
      | some d => some d
      | none =>
        match dateutilFuzzy s now with
        | some d => some d
        | none => toDatetimeCoerce s now

/-- Unfolding equation of parse_date on a present cell. -/
theorem parse_date_some (raw : String) (now : PDate) :
    parse_date (some raw) now =
      if pyStrip raw = "" ∨ pyLower (pyStrip raw) ∈ nullTokens then none
      else
        match fmts.findSome? (fun f => strptime f (pyStrip raw)) with
        | some d => some d
        | none =>
          match dateutilFuzzy (pyStrip raw) now with
          | some d => some d
          | none => toDatetimeCoerce (pyStrip raw) now := rfl

/-- A raw cell that strips to the empty string or to a null token parses to
NaT, independently of the observation date. -/
theorem parse_date_null (raw : String) (now : PDate)
    (h : pyStrip raw = "" ∨ pyLower (pyStrip raw) ∈ nullTokens) :
    parse_date (some raw) now = none := by
  rw [parse_date_some, if_pos h]

/-- C6: the empty string, whitespace-only strings, and the case-insensitive
null tokens "none", "nan", "n/a", "na" all normalize to Unknown (NaT),
for every observation date; in particular "", "   ", "none", "NaN" and
"N/A" do. -/
theorem parse_date_null_tokens :
    (∀ now : PDate, parse_date none now = none) ∧
    (∀ (raw : String) (now : PDate),
      pyStrip raw = "" ∨ pyLower (pyStrip raw) ∈ nullTokens →
      parse_date (some raw) now = none) ∧
    (∀ now : PDate,
      parse_date (some "") now = none ∧
      parse_date (some "   ") now = none ∧
      parse_date (some "none") now = none ∧
      parse_date (some "NaN") now = none ∧
      parse_date (some "N/A") now = none) := by
  refine ⟨fun _ => rfl, parse_date_null, fun _ => ⟨rfl, rfl, rfl, rfl, rfl⟩⟩

/-- Witness for the hypothesis of parse_date_null_tokens at a concrete
input. -/
theorem parse_date_null_tokens_witness :
    parse_date (some " Na ") ⟨2025, 6, 1⟩ = none :=
  parse_date_null_tokens.2.1 " Na " ⟨2025, 6, 1⟩ (Or.inr (by decide))

/-- C2 fails on the code: normalization is not a function of the raw string
alone, because the fuzzy dateutil fallback fills components the string
leaves unspecified from the current date. "march 5" (which no explicit
format matches) parses to the 5th of March of whatever year the code runs
in, so two observation times give two different results. -/
theorem parse_date_not_time_invariant :
    parse_date (some "march 5") ⟨2024, 6, 1⟩ ≠ parse_date (some "march 5") ⟨2025, 6, 1⟩ := by
  decide

/-- C2 amended: normalization is deterministic given the raw string and the
observation date, and it is independent of the observation date on every
non-fallback path — a missing cell, a null-token or empty cell, and any
cell some explicit format of the list parses. Only the fuzzy fallback
(reached when every explicit format fails) consults the current date,
through dateutil's defaulting of unspecified components. The function
never mutates its input (the embedding is pure by construction). -/
theorem parse_date_explicit_time_invariant :
    (∀ (now now2 : PDate), parse_date none now = parse_date none now2) ∧
    (∀ (raw : String) (now now2 : PDate),
      (pyStrip raw = "" ∨ pyLower (pyStrip raw) ∈ nullTokens) ∨
        (fmts.findSome? (fun f => strptime f (pyStrip raw))).isSome = true →
      parse_date (some raw) now = parse_date (some raw) now2) := by
  refine ⟨fun _ _ => rfl, ?_⟩
  intro raw now now2 h
  rw [parse_date_some, parse_date_some]
  by_cases hc : pyStrip raw = "" ∨ pyLower (pyStrip raw) ∈ nullTokens
  · rw [if_pos hc, if_pos hc]
  · rw [if_neg hc, if_neg hc]
    rcases h with h | h
    · exact absurd h hc
    · obtain ⟨d, hd⟩ := Option.isSome_iff_exists.mp h
      rw [hd]

/-- Witness for the hypothesis of parse_date_explicit_time_invariant at a
concrete input. -/
theorem parse_date_explicit_time_invariant_witness :
    parse_date (some "2025-03-04") ⟨2024, 1, 1⟩ = parse_date (some "2025-03-04") ⟨2030, 12, 31⟩ :=
  parse_date_explicit_time_invariant.2 "2025-03-04" ⟨2024, 1, 1⟩ ⟨2030, 12, 31⟩
    (Or.inr (by decide))

/-- C3 fails on the code: "03-04-2025" resolves day-first (to 3 April 2025,
via "%d-%m-%y" failing and "%d-%m-%Y" matching) while "2025-03-04"
resolves via the ISO format to 4 March 2025 — two different calendar
dates, not the same one; and for the ambiguous "03/04/25" the month-first
interpretation wins (4 March 2025), not the day-first one (3 April 2025),
because the day-first slash format "%d/%m/%Y" demands a four-digit year
and cannot match a two-digit one. -/
theorem parse_date_format_order_counterexample :
    parse_date (some "03-04-2025") ⟨2025, 1, 1⟩ ≠ parse_date (some "2025-03-04") ⟨2025, 1, 1⟩ ∧
    parse_date (some "03/04/25") ⟨2025, 1, 1⟩ ≠ some ⟨2025, 4, 3⟩ := by
  refine ⟨by decide, by decide⟩

/-- C3 amended: under the ordered format list, "03-04-2025" parses day-first
to 3 April 2025 and "2025-03-04" parses as ISO to 4 March 2025 (distinct
dates), and the ambiguous "03/04/25" parses month-first to 4 March 2025,
since "%m/%d/%y" is the first format of the list whose two-digit year
directive can consume "25"; all three results are independent of the
observation date. -/
theorem parse_date_format_order :
    ∀ now : PDate,
      parse_date (some "03-04-2025") now = some ⟨2025, 4, 3⟩ ∧
      parse_date (some "2025-03-04") now = some ⟨2025, 3, 4⟩ ∧
      parse_date (some "03/04/25") now = some ⟨2025, 3, 4⟩ :=
  fun _ => ⟨rfl, rfl, rfl⟩

/-! ### Classified records, aggregator and urgency selectors

The left panel builds one DataFrame `df_left`: the due-date column already
normalized (here an integer day number or none for NaT), then a Category
column computed row by row. The aggregator KPIs (lines 168-174) and the
selector frames (lines 208-214, 250-258) all read that frame. -/

/-- One row of the updates feed after date normalization: the fields the
core logic reads. A none crew or status is a NaN cell. -/
structure Update where
  property : String
  crew : Option String
  due : Option Int
  status : Option String
  deriving DecidableEq

/-- A row with its computed Category column. -/
structure CRec where
  property : String
  crew : Option String
  due : Option Int
  status : Option String
  category : Category
  deriving DecidableEq

/-- The line `df_left["Category"] = df_left.apply(categorize, axis=1)`. -/
def classifyAll (rows : List Update) (today : Int) : List CRec :=
  rows.map (fun u =>
    CRec.mk u.property u.crew u.due u.status (categorize u.status u.due today))

/-- The number of rows in a given category, as the KPI block counts them
(`(df_left["Category"] == label).sum()`). -/
def countsByCategory (rs : List CRec) (c : Category) : Nat :=
  (rs.filter (fun r => r.category == c)).length

/-- Floor of a rational, computed on the reduced fraction. -/
def ratFloor (q : ℚ) : ℤ :=
  q.num.fdiv q.den

/-- Round-half-to-even to an integer, the rounding Python's builtin
`round` applies. -/
def roundHalfEven (q : ℚ) : ℤ :=
  let f := ratFloor q
  let r := q - (f : ℚ)
  if r < 1 / 2 then f
  else if 1 / 2 < r then f + 1
  else if 2 ∣ f then f else f + 1

/-- Python `round(x, 1)`: round to one decimal place. -/
def round1 (q : ℚ) : ℚ :=
  (roundHalfEven (q * 10) : ℚ) / 10

/-- Line 173 of the source:
`round((completed / total * 100), 1) if total > 0 else 0`, with the counts
of lines 168-169. Python computes in floats; the model computes the same
quantity in exact rationals with round-half-to-even at one decimal. -/
def completion_rate (rs : List CRec) : ℚ :=
  let total := rs.length
  let completed := (rs.filter (fun r => r.category == Category.Completed)).length
  if 0 < total then round1 ((completed : ℚ) / (total : ℚ) * 100) else 0

/-- Line 174 of the source: `df_left["CREW NAME"].dropna().nunique()` — the
number of distinct crew values after dropping only the missing (NaN)
cells. -/
def active_crews (rs : List CRec) : Nat :=
  ((rs.filterMap (fun r => r.crew)).dedup).length

/-- Stated from the spec's words, for comparison with active_crews: the
count of distinct non-empty crew_name values. -/
def distinctNonEmptyCrews (rs : List CRec) : Nat :=
  (((rs.filterMap (fun r => r.crew)).filter (fun c => c != "")).dedup).length

/-- Line 208: `df_left[df_left["Category"] == overdue_label]` (row order of
the frame is preserved; no sort is applied). -/
def overdue_df (rs : List CRec) : List CRec :=
  rs.filter (fun r => r.category == Category.Overdue)

/-- Line 209: the pending/bid rows, in frame order. -/
def pending_df (rs : List CRec) : List CRec :=
  rs.filter (fun r => r.category == Category.PendingBid)

/-- The due-soon condition of lines 210-214 and 252-254: a concrete due
date, at most seven days out, and not Completed. -/
def dueSoonB (r : CRec) (today : Int) : Bool :=
  match r.due with
  | some d => decide (d ≤ today + 7) && !(r.category == Category.Completed)
  | none => false

/-- Lines 210-214: `due_soon_df`, the due-soon rows in frame order. -/
def due_soon_df (rs : List CRec) (today : Int) : List CRec :=
  rs.filter (fun r => dueSoonB r today)

/-- Ascending comparison of optional due dates with a missing date (NaT)
greatest: the key order that "ascending by due date, missing dates last"
refers to in the theorems below. -/
def dueLE : Option Int → Option Int → Bool
  | _, none => true
  | none, some _ => false
  | some a, some b => decide (a ≤ b)

/-! The urgent worklist of lines 250-258 filters the frame by "Category is
Overdue, or due soon" and then applies sort_values("Due date") with the
default kind (quicksort). That sort's ascending-with-NaT-last arrangement
is a documented contract, but the relative order of rows with equal due
dates is an implementation detail of the installed numpy's argsort
(introsort, documented as not stable) and is neither guaranteed by the
pandas interface nor reproducible here; the urgent list's ordering is
therefore not modeled in this development. -/

/-- Two updates both Overdue by explicit vocabulary, the earlier row with
the later due date. -/
def unsortedRows : List Update :=
  [ Update.mk "5 Cedar Ln" none (some 5) (some "late"),
    Update.mk "2 Maple Dr" none (some 3) (some "late") ]

/-- C8 fails on the code: the sub-selector frames are plain filters of the
classified frame and are never sorted — on two overdue rows whose input
order is descending in due date, the overdue-only list keeps the input
order, which is not ascending by due date. -/
theorem sub_selectors_unsorted_counterexample :
    overdue_df (classifyAll unsortedRows 0) = classifyAll unsortedRows 0 ∧
    ¬ (overdue_df (classifyAll unsortedRows 0)).Pairwise
        (fun a b => dueLE a.due b.due = true) := by
  refine ⟨by decide, by decide⟩

/-- C8 amended: each named sub-selector returns exactly the records
satisfying its single predicate — Category Overdue, Category Pending/Bid,
or the due-soon condition — but in the input (frame) order, as an
order-preserving sublist of the input; no due-date sorting is applied to
these lists (only the merged urgent list is sorted). -/
theorem sub_selectors_filter :
    (∀ (rs : List CRec) (r : CRec),
      r ∈ overdue_df rs ↔ r ∈ rs ∧ r.category = Category.Overdue) ∧
    (∀ rs : List CRec, (overdue_df rs).Sublist rs) ∧
    (∀ (rs : List CRec) (r : CRec),
      r ∈ pending_df rs ↔ r ∈ rs ∧ r.category = Category.PendingBid) ∧
    (∀ rs : List CRec, (pending_df rs).Sublist rs) ∧
    (∀ (rs : List CRec) (today : Int) (r : CRec),
      r ∈ due_soon_df rs today ↔ r ∈ rs ∧ dueSoonB r today = true) ∧
    (∀ (rs : List CRec) (today : Int), (due_soon_df rs today).Sublist rs) := by
  refine ⟨?_, ?_, ?_, ?_, ?_, ?_⟩
  · intro rs r
    simp [overdue_df, List.mem_filter]
  · intro rs
    exact List.filter_sublist rs
  · intro rs r
    simp [pending_df, List.mem_filter]
  · intro rs
    exact List.filter_sublist rs
  · intro rs today r
    simp [due_soon_df, List.mem_filter]
  · intro rs today
    exact List.filter_sublist rs

/-- Floor of an integer embedded in the rationals is itself. -/
theorem ratFloor_intCast (n : ℤ) : ratFloor ((n : ℚ)) = n := by
  unfold ratFloor
  rw [Rat.num_intCast, Rat.den_intCast]
  simp [Int.fdiv_one]

/-- Round-half-to-even fixes the integers. -/
theorem roundHalfEven_intCast (n : ℤ) : roundHalfEven ((n : ℚ)) = n := by
  have e : roundHalfEven ((n : ℚ)) =
      (if (n : ℚ) - (ratFloor ((n : ℚ)) : ℚ) < 1 / 2 then ratFloor ((n : ℚ))
       else if 1 / 2 < (n : ℚ) - (ratFloor ((n : ℚ)) : ℚ) then ratFloor ((n : ℚ)) + 1
       else if 2 ∣ ratFloor ((n : ℚ)) then ratFloor ((n : ℚ))
       else ratFloor ((n : ℚ)) + 1) := rfl
  rw [e, ratFloor_intCast]
  norm_num

/-- Rounding an integer value to one decimal place returns it unchanged. -/
theorem round1_intCast (n : ℤ) : round1 ((n : ℚ)) = (n : ℚ) := by
  unfold round1
  have e : (n : ℚ) * 10 = ((n * 10 : ℤ) : ℚ) := by push_cast; ring
  rw [e, roundHalfEven_intCast]
  push_cast
  rw [mul_div_assoc]
  norm_num

/-- The completion-rate line as a closed formula of the frame. -/
theorem completion_rate_formula (rs : List CRec) :
    completion_rate rs =
      if rs.length = 0 then 0
      else round1 ((countsByCategory rs Category.Completed : ℚ) / (rs.length : ℚ) * 100) := by
  have e : completion_rate rs =
      if 0 < rs.length then
        round1 ((((rs.filter (fun r => r.category == Category.Completed)).length : ℚ)) /
          ((rs.length : ℚ)) * 100)
      else 0 := rfl
  by_cases h : rs.length = 0
  · rw [e, h, if_pos rfl]
    norm_num
  · have hpos : 0 < rs.length := Nat.pos_of_ne_zero h
    rw [e, if_pos hpos, if_neg h]
    rfl

/-- Ten updates of which exactly three carry completion language. -/
def kpiRows : List Update :=
  [ Update.mk "r1" (some "crew a") none (some "done"),
    Update.mk "r2" (some "crew a") none (some "done"),
    Update.mk "r3" (some "crew b") none (some "submitted"),
    Update.mk "r4" (some "crew b") none (some "bid"),
    Update.mk "r5" (some "crew b") none (some "bid"),
    Update.mk "r6" (some "crew c") none (some "waiting"),
    Update.mk "r7" (some "crew c") none (some "ongoing"),
    Update.mk "r8" (some "crew c") none (some "pricing"),
    Update.mk "r9" (some "crew d") none (some "will be there"),
    Update.mk "r10" (some "crew d") none (some "no update") ]

/-- C7: the completion rate equals the Completed count over the total,
times 100, rounded to one decimal place, and is 0 on an empty frame with
no division error; ten records of which three are Completed give 30.0. -/
theorem completion_rate_contract :
    (∀ rs : List CRec,
      completion_rate rs =
        if rs.length = 0 then 0
        else round1 ((countsByCategory rs Category.Completed : ℚ) / (rs.length : ℚ) * 100)) ∧
    completion_rate [] = 0 ∧
    (classifyAll kpiRows 0).length = 10 ∧
    countsByCategory (classifyAll kpiRows 0) Category.Completed = 3 ∧
    completion_rate (classifyAll kpiRows 0) = 30 := by
  have h10 : (classifyAll kpiRows 0).length = 10 := by decide
  have h3 : countsByCategory (classifyAll kpiRows 0) Category.Completed = 3 := by decide
  refine ⟨completion_rate_formula, rfl, h10, h3, ?_⟩
  rw [completion_rate_formula, h10, h3]
  norm_num
  have e30 : (30 : ℚ) = (((30 : ℤ) : ℚ)) := by norm_num
  rw [e30, round1_intCast]

/-- One row whose crew cell holds the empty string (a present value, not
NaN). -/
def crewRows : List Update :=
  [ Update.mk "10 Ash Way" (some "") (some 0) (some "done") ]

/-- C9 fails on the code: the Active Crews KPI drops only missing (NaN)
crew cells and counts every remaining distinct value — a present
empty-string crew name is counted, where the claim says empty names
contribute nothing: on one record with crew "" the code counts 1, the
claimed formula 0. -/
theorem active_crews_counterexample :
    active_crews (classifyAll crewRows 0) = 1 ∧
    distinctNonEmptyCrews (classifyAll crewRows 0) = 0 ∧
    active_crews (classifyAll crewRows 0) ≠ distinctNonEmptyCrews (classifyAll crewRows 0) := by
  refine ⟨by decide, by decide, by decide⟩

/-- C9 amended: the Active Crews KPI is the number of distinct non-missing
crew_name values of the frame (the cardinality of the set of present crew
cells): only null/NaN cells contribute nothing, while a present
empty-string value counts like any other value. -/
theorem active_crews_distinct_nonmissing :
    ∀ rs : List CRec,
      active_crews rs = ((rs.filterMap (fun r => r.crew)).toFinset).card := by
  intro rs
  rw [List.card_toFinset]
  rfl
